import Mathlib

/-!
Shallow embedding of the koast-automation rule engine
(src/lib/automationEngine.ts, src/lib/metaAdsService.ts,
src/app/api/automation/rules/route.ts).

Numbers are modelled as rationals; the string counters of the Meta
insights payload appear here already parsed, since the engine only ever
reads them through parseFloat / parseInt.  Wall-clock timestamps are
abstract naturals supplied by the caller, and uuid generation is a
caller-supplied name, so every operation is a pure function.
-/

namespace Koast

/-- The comparison operators of RuleCondition (src/types/index.ts). -/
inductive ComparisonOperator
  | gt
  | lt
  | ge
  | le
  | eq
  | ne
deriving DecidableEq

/-- AND / OR connectives between conditions (src/types/index.ts). -/
inductive LogicalOperator
  | AND
  | OR
deriving DecidableEq

/-- Action types recognised by the engine (src/types/index.ts). -/
inductive ActionType
  | PAUSE_CAMPAIGN
  | ADJUST_BUDGET
  | LOG_EVENT
  | SEND_NOTIFICATION
deriving DecidableEq

/-- Scalar parameter values (string | number | boolean). -/
inductive ParamValue
  | strVal (s : String)
  | numVal (q : ℚ)
  | boolVal (b : Bool)
deriving DecidableEq

/-- A parameter record, as a finite association list. -/
def ActionParams := List (String × ParamValue)

instance : DecidableEq ActionParams := by
  unfold ActionParams
  infer_instance

/-- One conversion-like event entry of the insights payload. -/
structure Action where
  action_type : String
  value : ℚ
deriving DecidableEq

/-- Raw insights counters of one campaign (src/types/index.ts,
CampaignInsights), with the numeric strings already parsed. -/
structure CampaignInsights where
  spend : ℚ
  actions : Option (List Action)
  clicks : ℚ
  impressions : ℚ
  ctr : ℚ
  cpc : ℚ
  cpm : ℚ
  reach : ℚ
  frequency : ℚ
deriving DecidableEq

/-- Derived metrics (calculatedMetrics in src/types/index.ts). -/
structure CalculatedMetrics where
  roas : Option ℚ
  costPerAction : Option ℚ
  conversionRate : Option ℚ
deriving DecidableEq

/-- The campaign fields the engine reads (src/types/index.ts, Campaign). -/
structure Campaign where
  id : String
  name : String
deriving DecidableEq

/-- Campaign data handed to the engine (CampaignWithInsights). -/
structure CampaignWithInsights where
  campaign : Campaign
  insights : Option CampaignInsights
  calculatedMetrics : CalculatedMetrics
  lastUpdated : ℕ
deriving DecidableEq

/-- One comparison condition of a rule (RuleCondition). -/
structure RuleCondition where
  id : String
  field : String
  operator : ComparisonOperator
  value : ℚ
  logicalOperator : Option LogicalOperator
deriving DecidableEq

/-- The action part of a rule. -/
structure RuleAction where
  type : ActionType
  parameters : Option ActionParams
deriving DecidableEq

/-- A stored automation rule (AutomationRule). -/
structure AutomationRule where
  id : String
  name : String
  description : Option String
  campaignId : String
  conditions : List RuleCondition
  action : RuleAction
  isActive : Bool
  createdAt : ℕ
  updatedAt : ℕ
  lastTriggered : Option ℕ
deriving DecidableEq

/-- The metadata block attached to every log entry
(AutomationEngine.logExecution). -/
structure LogMetadata where
  campaignName : String
  ruleName : String
  spend : ℚ
  ctr : ℚ
deriving DecidableEq

/-- One automation log entry (AutomationLog). -/
structure AutomationLog where
  id : String
  ruleId : String
  campaignId : String
  action : ActionType
  triggered : Bool
  reason : String
  timestamp : ℕ
  metadata : LogMetadata
deriving DecidableEq

/-- The two static collections of AutomationEngine. -/
structure EngineState where
  logs : List AutomationLog
  rules : List AutomationRule
deriving DecidableEq

/-- Result value of MetaAdsService.executeAction. -/
structure MetaExecResult where
  success : Bool
  action : ActionType
  timestamp : ℕ
  simulated : Bool
deriving DecidableEq

/-- The observable fact that the action executor was invoked with these
arguments (the call MetaAdsService.executeAction receives). -/
structure ExecCall where
  campaignId : String
  actionType : ActionType
  parameters : Option ActionParams
deriving DecidableEq

/-- MetaAdsService.executeAction: the in-repo executor only simulates the
side effect and unconditionally returns success (metaAdsService.ts,
lines 104-185); it can fail only by an exception thrown around it. -/
def metaExecuteAction (_campaignId : String) (action : ActionType)
    (_parameters : Option ActionParams) (now : ℕ) : MetaExecResult :=
  { success := true, action := action, timestamp := now, simulated := true }

/-- Predicate of the insights.actions.find call in
MetaAdsService.calculateMetrics. -/
def isCheckoutAction (a : Action) : Bool :=
  decide (a.action_type = "omni_initiated_checkout")
    || decide (a.action_type = "initiate_checkout")
    || decide (a.action_type = "offsite_conversion.fb_pixel_initiate_checkout")

/-- The conversion count picked by calculateMetrics: value of the first
matching checkout action, 0 when none is present. -/
def conversionsOf (insights : CampaignInsights) : ℚ :=
  match (insights.actions.getD []).find? isCheckoutAction with
  | some a => a.value
  | none => 0

/-- MetaAdsService.calculateMetrics (metaAdsService.ts, lines 205-232):
revenue is conversions times the fixed 50 average order value. -/
def calculateMetrics : Option CampaignInsights → CalculatedMetrics
  | none =>
    { roas := none, costPerAction := none, conversionRate := none }
  | some insights =>
    { roas :=
        if insights.spend > 0 then some (conversionsOf insights * 50 / insights.spend) else none,
      costPerAction :=
        if conversionsOf insights > 0 then some (insights.spend / conversionsOf insights) else none,
      conversionRate :=
        if insights.clicks > 0 then some (conversionsOf insights / insights.clicks * 100) else none }

/-- AutomationEngine.compareValues (automationEngine.ts, lines 138-159). -/
def compareValues (actualValue : ℚ) (operator : ComparisonOperator)
    (expectedValue : ℚ) : Bool :=
  match operator with
  | ComparisonOperator.gt => decide (actualValue > expectedValue)
  | ComparisonOperator.lt => decide (actualValue < expectedValue)
  | ComparisonOperator.ge => decide (actualValue ≥ expectedValue)
  | ComparisonOperator.le => decide (actualValue ≤ expectedValue)
  | ComparisonOperator.eq => decide (|actualValue - expectedValue| < 1/1000)
  | ComparisonOperator.ne => decide (|actualValue - expectedValue| ≥ 1/1000)

/-- Raw metric access: 0 whenever the insights payload is absent. -/
def rawMetric (cd : CampaignWithInsights) (f : CampaignInsights → ℚ) : ℚ :=
  match cd.insights with
  | some insights => f insights
  | none => 0

/-- The field switch of AutomationEngine.evaluateCondition
(automationEngine.ts, lines 87-124): outer none is the default branch
(unknown field), inner none a null derived metric. -/
def resolveField (cd : CampaignWithInsights) (field : String) : Option (Option ℚ) :=
  if field = "spend" then some (some (rawMetric cd (fun i => i.spend)))
  else if field = "ctr" then some (some (rawMetric cd (fun i => i.ctr)))
  else if field = "cpc" then some (some (rawMetric cd (fun i => i.cpc)))
  else if field = "cpm" then some (some (rawMetric cd (fun i => i.cpm)))
  else if field = "clicks" then some (some (rawMetric cd (fun i => i.clicks)))
  else if field = "impressions" then some (some (rawMetric cd (fun i => i.impressions)))
  else if field = "reach" then some (some (rawMetric cd (fun i => i.reach)))
  else if field = "frequency" then some (some (rawMetric cd (fun i => i.frequency)))
  else if field = "roas" then some cd.calculatedMetrics.roas
  else if field = "costPerAction" then some cd.calculatedMetrics.costPerAction
  else if field = "conversionRate" then some cd.calculatedMetrics.conversionRate
  else none

/-- AutomationEngine.evaluateCondition: an unknown field or a null value
makes the condition false, otherwise compareValues decides. -/
def evaluateCondition (condition : RuleCondition) (cd : CampaignWithInsights) : Bool :=
  match resolveField cd condition.field with
  | none => false
  | some none => false
  | some (some actualValue) =>
    compareValues actualValue condition.operator condition.value

/-- AutomationEngine.evaluateRule (automationEngine.ts, lines 164-185):
the running result is folded with condition i using condition i's own
logicalOperator (OR when set, AND otherwise). -/
def evaluateRule (rule : AutomationRule) (cd : CampaignWithInsights) : Bool :=
  match rule.conditions with
  | [] => false
  | c0 :: rest =>
    List.foldl
      (fun result condition =>
        let conditionResult := evaluateCondition condition cd
        match condition.logicalOperator with
        | some LogicalOperator.OR => result || conditionResult
        | _ => result && conditionResult)
      (evaluateCondition c0 cd) rest

/-- A rule as accepted by AutomationEngine.addRule: a condition still
missing its generated id. -/
structure NewCondition where
  field : String
  operator : ComparisonOperator
  value : ℚ
  logicalOperator : Option LogicalOperator
deriving DecidableEq

/-- The argument of AutomationEngine.addRule: an AutomationRule without
id, createdAt, updatedAt, with id-less conditions. -/
structure NewRuleInput where
  name : String
  description : Option String
  campaignId : String
  conditions : List NewCondition
  action : RuleAction
  isActive : Bool
  lastTriggered : Option ℕ := none
deriving DecidableEq

/-- AutomationEngine.addRule (automationEngine.ts, lines 18-33): assigns
the rule id, both timestamps and one id per condition, then appends. -/
def addRule (st : EngineState) (newId : String) (condId : ℕ → String)
    (now : ℕ) (input : NewRuleInput) : AutomationRule × EngineState :=
  let newRule : AutomationRule :=
    { id := newId,
      name := input.name,
      description := input.description,
      campaignId := input.campaignId,
      conditions := input.conditions.enum.map (fun p =>
        { id := condId p.1,
          field := p.2.field,
          operator := p.2.operator,
          value := p.2.value,
          logicalOperator := p.2.logicalOperator }),
      action := input.action,
      isActive := input.isActive,
      createdAt := now,
      updatedAt := now,
      lastTriggered := input.lastTriggered }
  (newRule, { st with rules := st.rules ++ [newRule] })

/-- A Partial update of an AutomationRule, as spread over the stored rule
by AutomationEngine.updateRule: a field present in the update replaces the
stored field.  The route strips only the ruleId key, so id and createdAt
may appear here. -/
structure RuleUpdate where
  id : Option String := none
  name : Option String := none
  description : Option String := none
  campaignId : Option String := none
  conditions : Option (List RuleCondition) := none
  action : Option RuleAction := none
  isActive : Option Bool := none
  createdAt : Option ℕ := none
  updatedAt : Option ℕ := none
  lastTriggered : Option ℕ := none
deriving DecidableEq

/-- The object spread of updateRule: stored rule fields overridden by the
present update fields, updatedAt always refreshed last. -/
def applyUpdate (rule : AutomationRule) (u : RuleUpdate) (now : ℕ) : AutomationRule :=
  { id := u.id.getD rule.id,
    name := u.name.getD rule.name,
    description := match u.description with
      | some d => some d
      | none => rule.description,
    campaignId := u.campaignId.getD rule.campaignId,
    conditions := u.conditions.getD rule.conditions,
    action := u.action.getD rule.action,
    isActive := u.isActive.getD rule.isActive,
    createdAt := u.createdAt.getD rule.createdAt,
    updatedAt := now,
    lastTriggered := match u.lastTriggered with
      | some t => some t
      | none => rule.lastTriggered }

/-- The findIndex-then-assign of AutomationEngine.updateRule, rendered as
replace-first-match: the first rule with the given id is replaced by its
merged version, later rules untouched; none when no id matches. -/
def updateRuleInList (ruleId : String) (u : RuleUpdate) (now : ℕ) :
    List AutomationRule → Option AutomationRule × List AutomationRule
  | [] => (none, [])
  | r :: rest =>
    if r.id = ruleId then
      let r' := applyUpdate r u now
      (some r', r' :: rest)
    else
      let (res, rest') := updateRuleInList ruleId u now rest
      (res, r :: rest')

/-- AutomationEngine.updateRule (automationEngine.ts, lines 52-63). -/
def updateRule (st : EngineState) (ruleId : String) (u : RuleUpdate)
    (now : ℕ) : Option AutomationRule × EngineState :=
  let (res, rules') := updateRuleInList ruleId u now st.rules
  (res, { st with rules := rules' })

/-- AutomationEngine.getRulesForCampaign (automationEngine.ts, lines 45-47). -/
def getRulesForCampaign (st : EngineState) (campaignId : String) :
    List AutomationRule :=
  st.rules.filter (fun rule => decide (rule.campaignId = campaignId) && rule.isActive)

/-- The fixed reason string logged when a rule does not trigger. -/
def conditionsNotMetReason : String := "Rule conditions not met"

/-- The reason string of a successful execution log entry. -/
def ActionType.toName : ActionType → String
  | ActionType.PAUSE_CAMPAIGN => "PAUSE_CAMPAIGN"
  | ActionType.ADJUST_BUDGET => "ADJUST_BUDGET"
  | ActionType.LOG_EVENT => "LOG_EVENT"
  | ActionType.SEND_NOTIFICATION => "SEND_NOTIFICATION"

/-- Reason text of the success branch of executeAction. -/
def actionExecutedReason (t : ActionType) : String :=
  "Action executed successfully: " ++ t.toName

/-- Reason text of the catch branch of executeAction: the failure detail
is appended to the fixed text. -/
def actionFailedReason (msg : String) : String :=
  "Action failed: " ++ msg

/-- The log entry built by AutomationEngine.logExecution
(automationEngine.ts, lines 223-251). -/
def mkLogEntry (rule : AutomationRule) (cd : CampaignWithInsights)
    (triggered : Bool) (reason : String) (logId : String) (now : ℕ) :
    AutomationLog :=
  { id := logId,
    ruleId := rule.id,
    campaignId := cd.campaign.id,
    action := rule.action.type,
    triggered := triggered,
    reason := reason,
    timestamp := now,
    metadata :=
      { campaignName := cd.campaign.name,
        ruleName := rule.name,
        spend := rawMetric cd (fun i => i.spend),
        ctr := rawMetric cd (fun i => i.ctr) } }

/-- The push-then-trim of logExecution: append, and when the length
exceeds 1000 keep only the most recent 1000 entries (slice(-1000)). -/
def appendCapped (logs : List AutomationLog) (log : AutomationLog) :
    List AutomationLog :=
  let logs' := logs ++ [log]
  if logs'.length > 1000 then logs'.drop (logs'.length - 1000) else logs'

/-- AutomationEngine.logExecution as a state transformer. -/
def logExecution (st : EngineState) (rule : AutomationRule)
    (cd : CampaignWithInsights) (triggered : Bool) (reason : String)
    (logId : String) (now : ℕ) : EngineState :=
  { st with logs := appendCapped st.logs (mkLogEntry rule cd triggered reason logId now) }

/-- The arguments executeAction hands to MetaAdsService.executeAction. -/
def mkExecCall (rule : AutomationRule) (cd : CampaignWithInsights) : ExecCall :=
  { campaignId := cd.campaign.id,
    actionType := rule.action.type,
    parameters := rule.action.parameters }

/-- The findIndex-then-assign that stamps lastTriggered on the stored
rule after a successful execution. -/
def setLastTriggered (ruleId : String) (now : ℕ) :
    List AutomationRule → List AutomationRule
  | [] => []
  | r :: rest =>
    if r.id = ruleId then { r with lastTriggered := some now } :: rest
    else r :: setLastTriggered ruleId now rest

/-- AutomationEngine.executeAction (automationEngine.ts, lines 190-218).
The awaited MetaAdsService.executeAction call is passed in as an Except:
ok models a normal return, error a thrown exception caught by the catch
branch.  On ok the engine logs triggered=true and stamps lastTriggered
before ever looking at result.success; on error it logs triggered=false
with the failure detail and leaves the rules untouched.  The returned
call list records that the executor was invoked. -/
def executeAction (st : EngineState) (rule : AutomationRule)
    (cd : CampaignWithInsights) (execResult : Except String MetaExecResult)
    (logId : String) (now : ℕ) : Bool × EngineState × List ExecCall :=
  match execResult with
  | Except.ok result =>
    let st1 := logExecution st rule cd true (actionExecutedReason rule.action.type) logId now
    let st2 := { st1 with rules := setLastTriggered rule.id now st1.rules }
    (result.success, st2, [mkExecCall rule cd])
  | Except.error msg =>
    (false, logExecution st rule cd false (actionFailedReason msg) logId now, [mkExecCall rule cd])

/-- The per-rule loop of AutomationEngine.processCampaignRules
(automationEngine.ts, lines 256-277): each rule is evaluated; a
triggering rule goes through executeAction (which never rethrows), a
non-triggering rule is logged with the fixed reason; the loop then
continues with the remaining rules. -/
def processRulesList (cd : CampaignWithInsights)
    (exec : AutomationRule → Except String MetaExecResult)
    (logId : AutomationRule → String) (now : ℕ) :
    EngineState → List AutomationRule → EngineState × List ExecCall
  | st, [] => (st, [])
  | st, rule :: rest =>
    let step :=
      if evaluateRule rule cd then
        let (_, st', calls) := executeAction st rule cd (exec rule) (logId rule) now
        (st', calls)
      else
        (logExecution st rule cd false conditionsNotMetReason (logId rule) now,
         ([] : List ExecCall))
    let (st2, calls2) := processRulesList cd exec logId now step.1 rest
    (st2, step.2 ++ calls2)

/-- AutomationEngine.processCampaignRules: select the active rules of the
campaign once, then run the loop. -/
def processCampaignRules (st : EngineState) (cd : CampaignWithInsights)
    (exec : AutomationRule → Except String MetaExecResult)
    (logId : AutomationRule → String) (now : ℕ) : EngineState × List ExecCall :=
  processRulesList cd exec logId now st (getRulesForCampaign st cd.campaign.id)

/-- The request body of the POST rules route (CreateRuleForm). -/
structure CreateRuleForm where
  name : String
  description : String
  campaignId : String
  conditions : List NewCondition
  actionType : ActionType
  actionParameters : Option ActionParams
deriving DecidableEq

/-- Outcome of the POST rules route. -/
inductive PostResult
  | badRequest (error : String)
  | created (rule : AutomationRule)
deriving DecidableEq

/-- Error text of the missing-fields rejection. -/
def missingFieldsError : String :=
  "Missing required fields: name, campaignId, conditions, actionType"

/-- Error text of the empty-conditions rejection. -/
def emptyConditionsError : String := "At least one condition is required"

/-- The POST handler of src/app/api/automation/rules/route.ts (lines
28-69): falsy name or campaignId, then empty conditions, are rejected
with 400 before addRule runs; otherwise the rule is stored active. -/
def postRule (st : EngineState) (newId : String) (condId : ℕ → String)
    (now : ℕ) (body : CreateRuleForm) : PostResult × EngineState :=
  if body.name = "" ∨ body.campaignId = "" then
    (PostResult.badRequest missingFieldsError, st)
  else if body.conditions.length = 0 then
    (PostResult.badRequest emptyConditionsError, st)
  else
    let (r, st') := addRule st newId condId now
      { name := body.name,
        description := some body.description,
        campaignId := body.campaignId,
        conditions := body.conditions,
        action := { type := body.actionType, parameters := body.actionParameters },
        isActive := true }
    (PostResult.created r, st')

/-! Concrete fixtures used by witnesses and counterexamples. -/

/-- An insights payload with 150 spend. -/
def insightsSpend150 : CampaignInsights :=
  { spend := 150, actions := none, clicks := 10, impressions := 1000,
    ctr := 1, cpc := 1, cpm := 1, reach := 100, frequency := 1 }

/-- An insights payload with zero spend. -/
def insightsZeroSpend : CampaignInsights :=
  { spend := 0, actions := none, clicks := 10, impressions := 1000,
    ctr := 1, cpc := 1, cpm := 1, reach := 100, frequency := 1 }

/-- The test campaign. -/
def campaignOne : Campaign := { id := "c1", name := "Campaign One" }

/-- Campaign data with the 150-spend payload. -/
def cdSpend150 : CampaignWithInsights :=
  { campaign := campaignOne,
    insights := some insightsSpend150,
    calculatedMetrics := calculateMetrics (some insightsSpend150),
    lastUpdated := 0 }

/-- Campaign data with the zero-spend payload. -/
def cdZeroSpend : CampaignWithInsights :=
  { campaign := campaignOne,
    insights := some insightsZeroSpend,
    calculatedMetrics := calculateMetrics (some insightsZeroSpend),
    lastUpdated := 0 }

/-- Condition A: spend > 100, carrying logicalOperator OR. -/
def condA : RuleCondition :=
  { id := "A", field := "spend", operator := ComparisonOperator.gt,
    value := 100, logicalOperator := some LogicalOperator.OR }

/-- Condition B: spend > 1000, carrying no logicalOperator. -/
def condB : RuleCondition :=
  { id := "B", field := "spend", operator := ComparisonOperator.gt,
    value := 1000, logicalOperator := none }

/-- Condition B with logicalOperator OR. -/
def condBor : RuleCondition :=
  { id := "B", field := "spend", operator := ComparisonOperator.gt,
    value := 1000, logicalOperator := some LogicalOperator.OR }

/-- A condition on the roas field. -/
def condRoas : RuleCondition :=
  { id := "R", field := "roas", operator := ComparisonOperator.gt,
    value := 0, logicalOperator := none }

/-- A condition naming an unrecognised metric field. -/
def condBogus : RuleCondition :=
  { id := "X", field := "bogus", operator := ComparisonOperator.gt,
    value := 0, logicalOperator := none }

/-- The unrecognised field name of condBogus. -/
def bogusField : String := "bogus"

/-- Whether the first character list starts the second. -/
def startsChars : List Char → List Char → Bool
  | [], _ => true
  | _ :: _, [] => false
  | a :: as, b :: bs => decide (a = b) && startsChars as bs

/-- Whether the first character list occurs inside the second. -/
def containsChars (needle : List Char) : List Char → Bool
  | [] => startsChars needle []
  | b :: rest => startsChars needle (b :: rest) || containsChars needle rest

/-- Whether the string sub occurs inside the string s. -/
def mentions (s sub : String) : Bool := containsChars sub.data s.data

/-- The default pause action. -/
def pauseAction : RuleAction :=
  { type := ActionType.PAUSE_CAMPAIGN, parameters := none }

/-- Rule over conditions [A, B] where A carries OR and B nothing. -/
def ruleAB : AutomationRule :=
  { id := "rule-AB", name := "AB", description := none,
    campaignId := "c1", conditions := [condA, condB],
    action := pauseAction, isActive := true,
    createdAt := 0, updatedAt := 0, lastTriggered := none }

/-- Rule over conditions [A, B] where B carries OR. -/
def ruleABor : AutomationRule :=
  { id := "rule-ABor", name := "ABor", description := none,
    campaignId := "c1", conditions := [condA, condBor],
    action := pauseAction, isActive := true,
    createdAt := 0, updatedAt := 0, lastTriggered := none }

/-- A triggering single-condition rule on campaign c1. -/
def ruleTrig : AutomationRule :=
  { id := "rule-T", name := "Trig", description := none,
    campaignId := "c1", conditions := [condA],
    action := pauseAction, isActive := true,
    createdAt := 0, updatedAt := 0, lastTriggered := none }

/-- A second triggering rule, processed after ruleTrig. -/
def ruleTrig2 : AutomationRule :=
  { id := "rule-T2", name := "Trig2", description := none,
    campaignId := "c1", conditions := [condA],
    action := pauseAction, isActive := true,
    createdAt := 0, updatedAt := 0, lastTriggered := none }

/-- The single-condition rule on the unrecognised field. -/
def ruleBogus : AutomationRule :=
  { id := "rule-X", name := "Bogus", description := none,
    campaignId := "c1", conditions := [condBogus],
    action := pauseAction, isActive := true,
    createdAt := 0, updatedAt := 0, lastTriggered := none }

/-- An active rule bound to a different campaign. -/
def ruleOther : AutomationRule :=
  { id := "rule-O", name := "Other", description := none,
    campaignId := "c2", conditions := [condA],
    action := pauseAction, isActive := true,
    createdAt := 0, updatedAt := 0, lastTriggered := none }

/-- An inactive rule on campaign c1. -/
def ruleInactive : AutomationRule :=
  { id := "rule-I", name := "Inactive", description := none,
    campaignId := "c1", conditions := [condA],
    action := pauseAction, isActive := false,
    createdAt := 0, updatedAt := 0, lastTriggered := none }

/-- The empty engine state. -/
def emptyState : EngineState := { logs := [], rules := [] }

/-- State holding only the unknown-field rule. -/
def stBogus : EngineState := { logs := [], rules := [ruleBogus] }

/-- State holding only rules that do not match campaign c1 actively. -/
def stMismatch : EngineState := { logs := [], rules := [ruleOther, ruleInactive] }

/-- State holding the two triggering rules. -/
def stTwoTrig : EngineState := { logs := [], rules := [ruleTrig, ruleTrig2] }

/-- Deterministic per-rule log id supply. -/
def logIdOfRule : AutomationRule → String := fun r => r.id ++ "-log"

/-- An executor oracle that always throws. -/
def failDetail : String := "network down"

/-- The always-throwing executor. -/
def execFail : AutomationRule → Except String MetaExecResult :=
  fun _ => Except.error failDetail

/-- An executor oracle that always returns the simulated success. -/
def execOk : AutomationRule → Except String MetaExecResult :=
  fun r => Except.ok (metaExecuteAction r.campaignId r.action.type r.action.parameters 0)

/-- A numbered log entry for the FIFO experiment. -/
def natLog (n : ℕ) : AutomationLog :=
  { id := toString n, ruleId := "r", campaignId := "c1",
    action := ActionType.LOG_EVENT, triggered := false,
    reason := "test", timestamp := n,
    metadata := { campaignName := "Campaign One", ruleName := "r",
                  spend := 0, ctr := 0 } }

/-- Per-condition id supply for addRule. -/
def condIdOf : ℕ → String := fun n => "cond-" ++ toString n

/-- The id assigned to the rule created through the POST route. -/
def ruleIdOne : String := "rule-1"

/-- A well-formed creation request with one condition. -/
def bodyOk : CreateRuleForm :=
  { name := "r", description := "", campaignId := "c1",
    conditions := [{ field := "spend", operator := ComparisonOperator.gt,
                     value := 100, logicalOperator := none }],
    actionType := ActionType.PAUSE_CAMPAIGN, actionParameters := none }

/-- A creation request with zero conditions. -/
def bodyNoConds : CreateRuleForm :=
  { name := "r", description := "", campaignId := "c1",
    conditions := [],
    actionType := ActionType.PAUSE_CAMPAIGN, actionParameters := none }

/-- The store after creating bodyOk through the POST route. -/
def stAfterCreate : EngineState := (postRule emptyState ruleIdOne condIdOf 0 bodyOk).2

/-- The update that replaces the conditions with an empty sequence. -/
def wipeConditions : RuleUpdate := { conditions := some [] }

/-- The store after emptying the created rule's conditions via PUT. -/
def stAfterWipe : EngineState := (updateRule stAfterCreate ruleIdOne wipeConditions 1).2

/-- A foreign rule id smuggled in through the update body. -/
def hijackId : String := "rule-2"

/-- The update that rewrites the stored rule's id. -/
def hijackUpdate : RuleUpdate := { id := some hijackId }

end Koast

namespace Koast

/-- The stored rule after creating bodyOk and then emptying its
conditions via the update surface. -/
def ruleCreatedWiped : AutomationRule :=
  { id := ruleIdOne, name := "r", description := some "", campaignId := "c1",
    conditions := [], action := pauseAction, isActive := true,
    createdAt := 0, updatedAt := 1, lastTriggered := none }

theorem appendCapped_length_le (logs : List AutomationLog) (l : AutomationLog) :
    (appendCapped logs l).length ≤ 1000 := by
  by_cases h : (logs ++ [l]).length > 1000
  · simp only [appendCapped]
    rw [if_pos h]
    simp only [List.length_drop, List.length_append, List.length_singleton] at h ⊢
    omega
  · simp only [appendCapped]
    rw [if_neg h]
    simp only [List.length_append, List.length_singleton] at h ⊢
    omega

theorem foldl_appendCapped (es : List AutomationLog) :
    ∀ logs : List AutomationLog, logs.length ≤ 1000 →
      List.foldl appendCapped logs es = (logs ++ es).drop (logs.length + es.length - 1000) := by
  induction es with
  | nil =>
    intro logs h
    simp only [List.foldl_nil, List.append_nil, List.length_nil, Nat.add_zero]
    rw [Nat.sub_eq_zero_of_le h, List.drop_zero]
  | cons e tl ih =>
    intro logs h
    rw [List.foldl_cons, ih _ (appendCapped_length_le logs e)]
    simp only [appendCapped]
    by_cases hlen : (logs ++ [e]).length > 1000
    · have h1000 : logs.length = 1000 := by
        simp only [List.length_append, List.length_singleton] at hlen
        omega
      rw [if_pos hlen]
      have hidx : (logs ++ [e]).length - 1000 = 1 := by
        simp only [List.length_append, List.length_singleton, h1000]
      rw [hidx]
      have hlen2 : ((logs ++ [e]).drop 1).length = 1000 := by
        simp only [List.length_drop, List.length_append, List.length_singleton, h1000]
      rw [hlen2]
      have hd : ((logs ++ [e]).drop 1) ++ tl = ((logs ++ [e]) ++ tl).drop 1 :=
        (List.drop_append_of_le_length (by simp)).symm
      rw [hd, List.drop_drop, List.append_assoc, List.singleton_append, List.length_cons]
      have dropCongr : ∀ (i j : ℕ) (l : List AutomationLog), i = j → l.drop i = l.drop j := by
        intro i j l hij
        rw [hij]
      exact dropCongr _ _ _ (by omega)
    · rw [if_neg hlen]
      rw [List.append_assoc, List.singleton_append]
      have dropCongr : ∀ (i j : ℕ) (l : List AutomationLog), i = j → l.drop i = l.drop j := by
        intro i j l hij
        rw [hij]
      refine dropCongr _ _ _ ?_
      simp only [List.length_append, List.length_cons, List.length_nil] at hlen ⊢
      omega

/-- C1 counterexample: in a rule with conditions [A, B] where A carries
logicalOperator OR and B carries none, A evaluates true on the 150-spend
snapshot, yet the rule evaluates false — the engine folds with B's own
(absent, hence AND) operator, not with the operator attached to A. -/
theorem fold_operator_attribution_cex :
    condA.logicalOperator = some LogicalOperator.OR ∧
    evaluateCondition condA cdSpend150 = true ∧
    ruleAB.conditions = [condA, condB] ∧
    evaluateRule ruleAB cdSpend150 = false := by
  refine ⟨rfl, by decide, rfl, by decide⟩

/-- C1 (amended): for a two-condition rule, the logical operator carried
by the second condition governs how the first condition's result combines
with the second's (OR when set to OR, AND when set to AND or absent); the
first condition's operator plays no role. -/
theorem fold_operator_on_following_condition
    (r : AutomationRule) (cd : CampaignWithInsights) (A B : RuleCondition)
    (hconds : r.conditions = [A, B]) :
    (B.logicalOperator = some LogicalOperator.OR →
      evaluateRule r cd = (evaluateCondition A cd || evaluateCondition B cd)) ∧
    ((B.logicalOperator = some LogicalOperator.AND ∨ B.logicalOperator = none) →
      evaluateRule r cd = (evaluateCondition A cd && evaluateCondition B cd)) := by
  constructor
  · intro hB
    simp [evaluateRule, hconds, hB]
  · intro hB
    rcases hB with hB | hB <;> simp [evaluateRule, hconds, hB]

/-- Witness for the amended C1 theorem at the concrete rules. -/
theorem fold_operator_on_following_condition_witness :
    evaluateRule ruleABor cdSpend150 =
      (evaluateCondition condA cdSpend150 || evaluateCondition condBor cdSpend150) ∧
    evaluateRule ruleAB cdSpend150 =
      (evaluateCondition condA cdSpend150 && evaluateCondition condB cdSpend150) :=
  ⟨(fold_operator_on_following_condition ruleABor cdSpend150 condA condBor rfl).1 rfl,
   (fold_operator_on_following_condition ruleAB cdSpend150 condA condB rfl).2 (Or.inr rfl)⟩

/-- C2: when the executor call throws, the engine logs a triggered=false
entry whose reason carries the failure detail, leaves the rule list (and
so lastTriggered) untouched, and the per-rule loop continues with the
remaining rules from exactly that state. -/
theorem executor_failure_isolated
    (st : EngineState) (rule : AutomationRule) (cd : CampaignWithInsights)
    (msg : String) (logId : AutomationRule → String) (now : ℕ)
    (rest : List AutomationRule)
    (exec : AutomationRule → Except String MetaExecResult) :
    (executeAction st rule cd (Except.error msg) (logId rule) now).2.1.rules = st.rules ∧
    (executeAction st rule cd (Except.error msg) (logId rule) now).2.1.logs =
      appendCapped st.logs
        (mkLogEntry rule cd false (actionFailedReason msg) (logId rule) now) ∧
    (exec rule = Except.error msg → evaluateRule rule cd = true →
      processRulesList cd exec logId now st (rule :: rest) =
        (let stf := logExecution st rule cd false (actionFailedReason msg) (logId rule) now
         ((processRulesList cd exec logId now stf rest).1,
          mkExecCall rule cd :: (processRulesList cd exec logId now stf rest).2))) := by
  refine ⟨rfl, rfl, ?_⟩
  intro hexec htrig
  simp only [processRulesList, htrig, hexec, executeAction, if_true]
  simp

/-- Witness for C2 at a concrete failing executor run over two rules. -/
theorem executor_failure_isolated_witness :
    processRulesList cdSpend150 execFail logIdOfRule 0 emptyState [ruleTrig, ruleTrig2] =
      (let stf := logExecution emptyState ruleTrig cdSpend150 false
         (actionFailedReason failDetail) (logIdOfRule ruleTrig) 0
       ((processRulesList cdSpend150 execFail logIdOfRule 0 stf [ruleTrig2]).1,
        mkExecCall ruleTrig cdSpend150 ::
          (processRulesList cdSpend150 execFail logIdOfRule 0 stf [ruleTrig2]).2)) :=
  (executor_failure_isolated emptyState ruleTrig cdSpend150 failDetail
    logIdOfRule 0 [ruleTrig2] execFail).2.2 rfl (by decide)

/-- First-match-replacement behind updateRule: no match leaves the list
untouched and yields none. -/
theorem updateRuleInList_not_found (ruleId : String) (u : RuleUpdate) (now : ℕ) :
    ∀ l : List AutomationRule, (∀ r ∈ l, r.id ≠ ruleId) →
      updateRuleInList ruleId u now l = (none, l) := by
  intro l
  induction l with
  | nil => intro _; rfl
  | cons r rest ih =>
    intro h
    simp only [updateRuleInList]
    rw [if_neg (h r (List.mem_cons_self r rest))]
    rw [ih (fun x hx => h x (List.mem_cons_of_mem r hx))]

/-- First-match-replacement behind updateRule: a returned rule has the
refreshed updatedAt, and keeps the matched rule's id and createdAt
whenever the update does not itself carry those fields. -/
theorem updateRuleInList_found (ruleId : String) (u : RuleUpdate) (now : ℕ) :
    ∀ (l : List AutomationRule) (r : AutomationRule),
      (updateRuleInList ruleId u now l).1 = some r →
      r.updatedAt = now ∧ (u.id = none → r.id = ruleId) ∧
      (u.createdAt = none → ∃ r0 ∈ l, r0.id = ruleId ∧ r.createdAt = r0.createdAt) := by
  intro l
  induction l with
  | nil =>
    intro r h
    simp [updateRuleInList] at h
  | cons r1 rest ih =>
    intro r h
    by_cases hid : r1.id = ruleId
    · simp only [updateRuleInList, if_pos hid] at h
      have hr : r = applyUpdate r1 u now := by
        injection h with h
        exact h.symm
      subst hr
      refine ⟨rfl, ?_, ?_⟩
      · intro hu
        simp [applyUpdate, hu, hid]
      · intro hu
        exact ⟨r1, List.mem_cons_self r1 rest, hid, by simp [applyUpdate, hu]⟩
    · rcases hres : updateRuleInList ruleId u now rest with ⟨res, rest'⟩
      simp only [updateRuleInList, if_neg hid, hres] at h
      obtain ⟨h1, h2, h3⟩ := ih r (by rw [hres]; exact h)
      refine ⟨h1, h2, fun hu => ?_⟩
      obtain ⟨r0, hmem, hr0⟩ := h3 hu
      exact ⟨r0, List.mem_cons_of_mem r1 hmem, hr0⟩

/-- C3 counterexample: the store created through the POST surface holds
the rule under ruleIdOne, and a PUT whose body carries an id field
rewrites the stored rule's id — changing id is not prevented. -/
theorem update_can_change_id_cex :
    stAfterCreate.rules.map (fun r => r.id) = [ruleIdOne] ∧
    (updateRule stAfterCreate ruleIdOne hijackUpdate 2).2.rules.map (fun r => r.id) = [hijackId] ∧
    hijackId ≠ ruleIdOne := by
  refine ⟨by decide, by decide, by decide⟩

/-- C3 (amended): updateRule merges the given fields and refreshes
updatedAt; id and createdAt stay unchanged provided the update itself does
not carry them; an unknown id returns none and leaves the store as it
was. -/
theorem updateRule_merge_semantics
    (st : EngineState) (ruleId : String) (u : RuleUpdate) (now : ℕ) :
    ((∀ r ∈ st.rules, r.id ≠ ruleId) → updateRule st ruleId u now = (none, st)) ∧
    (∀ r, (updateRule st ruleId u now).1 = some r →
      r.updatedAt = now ∧ (u.id = none → r.id = ruleId) ∧
      (u.createdAt = none → ∃ r0 ∈ st.rules, r0.id = ruleId ∧ r.createdAt = r0.createdAt)) := by
  constructor
  · intro h
    simp [updateRule, updateRuleInList_not_found ruleId u now st.rules h]
  · intro r h
    exact updateRuleInList_found ruleId u now st.rules r h

/-- Witness for the amended C3 theorem: an unknown id leaves the concrete
store untouched, and the found case at the concrete wiped rule. -/
theorem updateRule_merge_semantics_witness :
    (updateRule stAfterCreate hijackId wipeConditions 1 = (none, stAfterCreate)) ∧
    (ruleCreatedWiped.updatedAt = 1 ∧
      (wipeConditions.id = none → ruleCreatedWiped.id = ruleIdOne) ∧
      (wipeConditions.createdAt = none →
        ∃ r0 ∈ stAfterCreate.rules, r0.id = ruleIdOne ∧
          ruleCreatedWiped.createdAt = r0.createdAt)) :=
  ⟨(updateRule_merge_semantics stAfterCreate hijackId wipeConditions 1).1 (by decide),
   (updateRule_merge_semantics stAfterCreate ruleIdOne wipeConditions 1).2
     ruleCreatedWiped (by decide)⟩

/-- C4: a zero-spend snapshot yields a null roas, and any condition on the
roas field over such data evaluates false whatever its operator and
threshold; evaluation is total, so no error can abort the rule. -/
theorem zero_spend_roas_null_condition_false
    (insights : CampaignInsights) (cond : RuleCondition) (cd : CampaignWithInsights)
    (hspend : insights.spend = 0)
    (hfield : cond.field = "roas")
    (hcd : cd.calculatedMetrics = calculateMetrics (some insights)) :
    (calculateMetrics (some insights)).roas = none ∧
    evaluateCondition cond cd = false := by
  have hroas : (calculateMetrics (some insights)).roas = none := by
    simp [calculateMetrics, hspend]
  refine ⟨hroas, ?_⟩
  simp [evaluateCondition, resolveField, hfield, hcd, hroas]

/-- Witness for C4 at the zero-spend snapshot and a concrete roas
condition. -/
theorem zero_spend_roas_null_condition_false_witness :
    (calculateMetrics (some insightsZeroSpend)).roas = none ∧
    evaluateCondition condRoas cdZeroSpend = false :=
  zero_spend_roas_null_condition_false insightsZeroSpend condRoas cdZeroSpend rfl rfl rfl

/-- C5: equality compares true exactly when the absolute difference is
below 1/1000 (the 0.001 epsilon), inequality exactly when it is at least
1/1000; 9.9995 equals 10 under the tolerance while 9.99 does not. -/
theorem epsilon_equality_semantics :
    (∀ a t : ℚ,
      (compareValues a ComparisonOperator.eq t = true ↔ |a - t| < 1/1000) ∧
      (compareValues a ComparisonOperator.ne t = true ↔ 1/1000 ≤ |a - t|)) ∧
    compareValues 9.9995 ComparisonOperator.eq 10 = true ∧
    compareValues 9.99 ComparisonOperator.eq 10 = false := by
  refine ⟨fun a t => ⟨?_, ?_⟩, ?_, ?_⟩
  · simp [compareValues]
  · simp [compareValues]
  · simp only [compareValues, decide_eq_true_eq]
    have h : (9.9995 : ℚ) - 10 = -(1/2000) := by norm_num
    rw [h, abs_neg, abs_of_nonneg (by norm_num)]
    norm_num
  · simp only [compareValues, decide_eq_false_iff_not]
    have h : (9.99 : ℚ) - 10 = -(1/100) := by norm_num
    rw [h, abs_neg, abs_of_nonneg (by norm_num)]
    norm_num

/-- C6: the capped append never leaves more than 1000 entries, and a
sequence of 1001 appends into the empty store keeps exactly the 1000 most
recent entries, dropping the oldest. -/
theorem log_store_cap_and_fifo :
    (∀ (logs : List AutomationLog) (l : AutomationLog),
      (appendCapped logs l).length ≤ 1000) ∧
    (∀ es : List AutomationLog, es.length = 1001 →
      List.foldl appendCapped [] es = es.drop 1) := by
  refine ⟨appendCapped_length_le, ?_⟩
  intro es h
  rw [foldl_appendCapped es [] (by simp)]
  simp [h]

/-- Witness for C6 on 1001 concrete numbered log entries. -/
theorem log_store_cap_and_fifo_witness :
    List.foldl appendCapped [] ((List.range 1001).map natLog) =
      ((List.range 1001).map natLog).drop 1 :=
  log_store_cap_and_fifo.2 _ (by simp)

/-- C7 counterexample: processing the rule whose only condition names the
unrecognised field bogus writes a log entry with the generic reason, and
that reason does not mention the field at all — the resolution failure is
reported only to the console, never recorded in the log reason. -/
theorem unknown_field_reason_cex :
    ruleBogus.conditions.map (fun c => c.field) = [bogusField] ∧
    (processCampaignRules stBogus cdSpend150 execOk logIdOfRule 0).1.logs.map
      (fun e => (e.ruleId, e.triggered, e.reason)) =
      [(ruleBogus.id, false, conditionsNotMetReason)] ∧
    mentions conditionsNotMetReason bogusField = false := by
  refine ⟨by decide, by decide, by decide⟩

/-- C7 (amended): a condition naming an unrecognised field evaluates
false, the rule is logged with the fixed generic reason, and the per-rule
loop continues with the remaining rules; no exception arises. -/
theorem unknown_field_condition_false
    (cond : RuleCondition) (cd : CampaignWithInsights)
    (h1 : cond.field ≠ "spend") (h2 : cond.field ≠ "ctr")
    (h3 : cond.field ≠ "cpc") (h4 : cond.field ≠ "cpm")
    (h5 : cond.field ≠ "clicks") (h6 : cond.field ≠ "impressions")
    (h7 : cond.field ≠ "reach") (h8 : cond.field ≠ "frequency")
    (h9 : cond.field ≠ "roas") (h10 : cond.field ≠ "costPerAction")
    (h11 : cond.field ≠ "conversionRate") :
    evaluateCondition cond cd = false ∧
    (∀ (st : EngineState) (r : AutomationRule) (rest : List AutomationRule)
       (exec : AutomationRule → Except String MetaExecResult)
       (logId : AutomationRule → String) (now : ℕ),
      r.conditions = [cond] →
      processRulesList cd exec logId now st (r :: rest) =
        processRulesList cd exec logId now
          (logExecution st r cd false conditionsNotMetReason (logId r) now) rest) := by
  have hres : resolveField cd cond.field = none := by
    simp [resolveField, h1, h2, h3, h4, h5, h6, h7, h8, h9, h10, h11]
  have hcond : evaluateCondition cond cd = false := by
    simp [evaluateCondition, hres]
  refine ⟨hcond, ?_⟩
  intro st r rest exec logId now hr
  have hrule : evaluateRule r cd = false := by
    simp [evaluateRule, hr, hcond]
  simp only [processRulesList, hrule]
  simp

/-- Witness for the amended C7 theorem at the concrete bogus-field rule. -/
theorem unknown_field_condition_false_witness :
    evaluateCondition condBogus cdSpend150 = false ∧
    processRulesList cdSpend150 execOk logIdOfRule 0 stBogus [ruleBogus] =
      processRulesList cdSpend150 execOk logIdOfRule 0
        (logExecution stBogus ruleBogus cdSpend150 false conditionsNotMetReason
          (logIdOfRule ruleBogus) 0) [] := by
  have h := unknown_field_condition_false condBogus cdSpend150 (by decide) (by decide)
    (by decide) (by decide) (by decide) (by decide) (by decide) (by decide)
    (by decide) (by decide) (by decide)
  exact ⟨h.1, h.2 stBogus ruleBogus [] execOk logIdOfRule 0 rfl⟩

/-- C8: the selection for a campaign is exactly the stored rules with that
campaignId and isActive, and an empty selection leaves the state unchanged
with no executor call. -/
theorem campaign_selection_empty_pass
    (st : EngineState) (cd : CampaignWithInsights)
    (exec : AutomationRule → Except String MetaExecResult)
    (logId : AutomationRule → String) (now : ℕ) :
    (∀ r : AutomationRule, r ∈ getRulesForCampaign st cd.campaign.id ↔
      (r ∈ st.rules ∧ r.campaignId = cd.campaign.id ∧ r.isActive = true)) ∧
    (getRulesForCampaign st cd.campaign.id = [] →
      processCampaignRules st cd exec logId now = (st, [])) := by
  constructor
  · intro r
    simp [getRulesForCampaign, List.mem_filter, and_assoc]
  · intro h
    simp [processCampaignRules, h, processRulesList]

/-- Witness for C8: the store whose rules are inactive or bound elsewhere
yields an unchanged state and an empty call list. -/
theorem campaign_selection_empty_pass_witness :
    processCampaignRules stMismatch cdSpend150 execOk logIdOfRule 0 = (stMismatch, []) :=
  (campaign_selection_empty_pass stMismatch cdSpend150 execOk logIdOfRule 0).2 (by decide)

/-- C9 counterexample: the empty-conditions request is indeed rejected
leaving the store empty, and a rule created with one condition is stored;
but the update surface then replaces its conditions with the empty
sequence, so the reachable store stAfterWipe holds a rule with empty
conditions — the store-wide invariant does not follow. -/
theorem stored_rule_empty_conditions_cex :
    (postRule emptyState ruleIdOne condIdOf 0 bodyNoConds).2.rules.length = 0 ∧
    stAfterCreate.rules.map (fun r => r.conditions.length) = [1] ∧
    stAfterWipe.rules.map (fun r => r.conditions) = [[]] := by
  refine ⟨by decide, by decide, by decide⟩

/-- C9 (amended): a creation request with an empty conditions sequence is
rejected with a validation error before storage and the store is left
exactly as it was. -/
theorem empty_conditions_creation_rejected
    (st : EngineState) (newId : String) (condId : ℕ → String) (now : ℕ)
    (body : CreateRuleForm) (h : body.conditions = []) :
    (postRule st newId condId now body).2 = st ∧
    ∃ e, (postRule st newId condId now body).1 = PostResult.badRequest e := by
  by_cases hname : body.name = "" ∨ body.campaignId = ""
  · constructor
    · simp [postRule, hname]
    · exact ⟨missingFieldsError, by simp [postRule, hname]⟩
  · constructor
    · simp [postRule, hname, h]
    · exact ⟨emptyConditionsError, by simp [postRule, hname, h]⟩

/-- Witness for the amended C9 theorem at the concrete request. -/
theorem empty_conditions_creation_rejected_witness :
    (postRule emptyState ruleIdOne condIdOf 0 bodyNoConds).2 = emptyState ∧
    ∃ e, (postRule emptyState ruleIdOne condIdOf 0 bodyNoConds).1 = PostResult.badRequest e :=
  empty_conditions_creation_rejected emptyState ruleIdOne condIdOf 0 bodyNoConds rfl

/-- C10: the inequality branch is the exact boolean negation of the
equality branch for every pair of values — the two epsilon comparisons
partition all cases. -/
theorem neq_is_negation_of_eq (a t : ℚ) :
    compareValues a ComparisonOperator.ne t = !(compareValues a ComparisonOperator.eq t) := by
  simp only [compareValues]
  rw [← decide_not, decide_eq_decide]
  exact not_lt.symm

end Koast
